import Mathlib

/-!
Verification of the `chatbot_ai_regeneration_credit` repository.

Shallow embedding in Lean 4 of the parts of the code the claims are about:

* `src/utils/pricing.py`        — namespace `Pricing`
* `src/utils/tokens_tracker.py` — namespace `Tracker`
* `src/agents/main_agent.py`    — namespace `Agent` (the manual ReAct loop)
* `src/rag/vector_store.py` and `src/tools/rag_tools.py` — namespace `Rag`
* `src/scripts_exemplos/consultar_vector_store_retriever.py` — namespace `Retriever`

Python floats are modelled by exact rationals (`ℚ`), dicts of token counts by
structures with a field per key (absent key = default 0 / `none`), raised
exceptions by `Except`.
-/

namespace Pricing

/-- Python's `a or b` on integer counts: `0` is falsy, so `a or b` is `b`
when `a = 0` and `a` otherwise.  Used for `tokens.get("input", 0) or
tokens.get("input_tokens", 0)` patterns. -/
def pyOr (a b : Nat) : Nat := if a = 0 then b else a

/-- One entry of the pricing tables (USD per 1M tokens).  Optional fields
model keys that only some models' dicts carry. -/
structure Precos where
  input : ℚ
  output : ℚ
  cached_input : Option ℚ := none
  cache_write_5m : Option ℚ := none
  cache_write_1h : Option ℚ := none
  cache_read : Option ℚ := none
  deriving DecidableEq, Repr

/-- Table `PRICING_OPENAI` from `src/utils/pricing.py`. -/
def PRICING_OPENAI : List (String × Precos) := [
  ("gpt-5", { input := 1.25, cached_input := some 0.125, output := 10.00 }),
  ("gpt-5-mini", { input := 0.25, cached_input := some 0.025, output := 2.00 }),
  ("gpt-5-nano", { input := 0.05, cached_input := some 0.005, output := 0.40 }),
  ("gpt-5-chat-latest", { input := 1.25, cached_input := some 0.125, output := 10.00 }),
  ("gpt-5-codex", { input := 1.25, cached_input := some 0.125, output := 10.00 }),
  ("gpt-5-pro", { input := 15.00, output := 120.00 }),
  ("gpt-4.1", { input := 2.00, cached_input := some 0.50, output := 8.00 }),
  ("gpt-4.1-mini", { input := 0.40, cached_input := some 0.10, output := 1.60 }),
  ("gpt-4.1-nano", { input := 0.10, cached_input := some 0.025, output := 0.40 }),
  ("gpt-4o", { input := 2.50, cached_input := some 1.25, output := 10.00 }),
  ("gpt-4o-mini", { input := 0.15, cached_input := some 0.075, output := 0.60 }),
  ("o1", { input := 15.00, cached_input := some 7.50, output := 60.00 }),
  ("o1-pro", { input := 150.00, output := 600.00 }),
  ("o3", { input := 2.00, cached_input := some 0.50, output := 8.00 }),
  ("o3-pro", { input := 20.00, output := 80.00 }),
  ("o3-deep-research", { input := 10.00, cached_input := some 2.50, output := 40.00 }),
  ("gpt-4", { input := 30.00, output := 60.00 }),
  ("gpt-4-32k", { input := 60.00, output := 120.00 }),
  ("gpt-4-turbo", { input := 10.00, output := 30.00 }),
  ("gpt-4-turbo-preview", { input := 10.00, output := 30.00 })]

/-- Table `PRICING_ANTHROPIC` from `src/utils/pricing.py`. -/
def PRICING_ANTHROPIC : List (String × Precos) := [
  ("claude-opus-4.1", { input := 15.00, cache_write_5m := some 18.75, cache_write_1h := some 30.00, cache_read := some 1.50, output := 75.00 }),
  ("claude-opus-4", { input := 15.00, cache_write_5m := some 18.75, cache_write_1h := some 30.00, cache_read := some 1.50, output := 75.00 }),
  ("claude-opus-3", { input := 15.00, cache_write_5m := some 18.75, cache_write_1h := some 30.00, cache_read := some 1.50, output := 75.00 }),
  ("claude-sonnet-4.5", { input := 3.00, cache_write_5m := some 3.75, cache_write_1h := some 6.00, cache_read := some 0.30, output := 15.00 }),
  ("claude-sonnet-4", { input := 3.00, cache_write_5m := some 3.75, cache_write_1h := some 6.00, cache_read := some 0.30, output := 15.00 }),
  ("claude-sonnet-3.7", { input := 3.00, cache_write_5m := some 3.75, cache_write_1h := some 6.00, cache_read := some 0.30, output := 15.00 }),
  ("claude-haiku-4.5", { input := 1.00, cache_write_5m := some 1.25, cache_write_1h := some 2.00, cache_read := some 0.10, output := 5.00 }),
  ("claude-haiku-3.5", { input := 0.80, cache_write_5m := some 1.00, cache_write_1h := some 1.60, cache_read := some 0.08, output := 4.00 }),
  ("claude-haiku-3", { input := 0.25, cache_write_5m := some 0.30, cache_write_1h := some 0.50, cache_read := some 0.03, output := 1.25 })]

/-- Merged table `PRICING_ALL = {**PRICING_OPENAI, **PRICING_ANTHROPIC}`; the key sets are
disjoint, so dict merge is list append (first `lookup` hit wins, and there is
at most one hit). -/
def PRICING_ALL : List (String × Precos) := PRICING_OPENAI ++ PRICING_ANTHROPIC

/-- Table `MODEL_ALIASES` from `src/utils/pricing.py`. -/
def MODEL_ALIASES : List (String × String) := [
  ("gpt-5-2025-08-07", "gpt-5"),
  ("gpt-5-mini-2025-08-07", "gpt-5-mini"),
  ("gpt-5-pro-2025-10-06", "gpt-5-pro"),
  ("o3-2025-04-16", "o3"),
  ("o3-pro-2025-06-10", "o3-pro"),
  ("claude-opus-4-20241120", "claude-opus-4"),
  ("claude-opus-4.1-20250101", "claude-opus-4.1"),
  ("claude-sonnet-4-20241120", "claude-sonnet-4"),
  ("claude-sonnet-4-5-20250929", "claude-sonnet-4.5"),
  ("claude-sonnet-3-7-20240620", "claude-sonnet-3.7"),
  ("claude-haiku-4-5-20250301", "claude-haiku-4.5"),
  ("claude-haiku-4-5-20251001", "claude-haiku-4.5"),
  ("claude-haiku-3-5-20240307", "claude-haiku-3.5"),
  ("claude-haiku-3-20240229", "claude-haiku-3"),
  ("claude_opus_4", "claude-opus-4"),
  ("claude_sonnet_4_5", "claude-sonnet-4.5"),
  ("claude_haiku_3_5", "claude-haiku-3.5")]

/-- Everything after the first occurrence of `c` (the whole list if `c` does
not occur); models Python's `s.split(c, 1)[1]` under the guard `c in s`. -/
def dropThroughChar (c : Char) : List Char → List Char
  | [] => []
  | x :: xs => if x = c then xs else dropThroughChar c xs

/-- Python's `model.split("/", 1)[1]` — the part after the first `/`. -/
def afterFirstSlash (s : String) : String := ⟨dropThroughChar '/' s.data⟩

/-- Tests whether `p` starts the string `s` (character by character); models Python's `str.startswith`. -/
def strStartsWith (s p : String) : Bool := go s.data p.data
where
  go : List Char → List Char → Bool
    | _, [] => true
    | [], _ :: _ => false
    | a :: as, b :: bs => a = b && go as bs

/-- Embeds `normalizar_nome_modelo` from `src/utils/pricing.py`. -/
def normalizar_nome_modelo (model : String) : String :=
  if model = "" then "claude-sonnet-4.5"
  else
    let model := if model.data.contains '/' then afterFirstSlash model else model
    match MODEL_ALIASES.lookup model with
    | some target => target
    | none => model

/-- Embeds `detectar_provider` from `src/utils/pricing.py`. -/
def detectar_provider (model : String) : String :=
  let model_norm := normalizar_nome_modelo model
  if strStartsWith model_norm "claude" then "anthropic"
  else if strStartsWith model_norm "gpt" || strStartsWith model_norm "o1"
      || strStartsWith model_norm "o3" then "openai"
  else "unknown"

/-- Embeds `obter_precos_modelo` from `src/utils/pricing.py`. -/
def obter_precos_modelo (model : String) : Option Precos :=
  PRICING_ALL.lookup (normalizar_nome_modelo model)

/-- The token-count dict passed to `calcular_custo` / `registrar_chamada`:
one field per key the code reads, absent key = 0 (`tokens.get(k, 0)`), and
`total` absent = `none` (`"total" in tokens`). -/
structure Tokens where
  input : Nat := 0
  input_tokens : Nat := 0
  output : Nat := 0
  output_tokens : Nat := 0
  reasoning : Nat := 0
  reasoning_tokens : Nat := 0
  cache_creation_input_tokens : Nat := 0
  cache_read_input_tokens : Nat := 0
  total : Option Int := none
  deriving DecidableEq, Repr

/-- Embeds `calcular_custo` from `src/utils/pricing.py` (exact rational arithmetic
in place of Python floats). -/
def calcular_custo (tokens : Tokens) (model : String)
    (use_cached : Bool := false) : ℚ :=
  match obter_precos_modelo model with
  | none => 0.0
  | some precos =>
    let provider := detectar_provider model
    let input_tokens := pyOr tokens.input tokens.input_tokens
    let output_tokens := pyOr tokens.output tokens.output_tokens
    let reasoning_tokens := pyOr tokens.reasoning tokens.reasoning_tokens
    if provider = "anthropic" then
      let cache_creation := tokens.cache_creation_input_tokens
      let cache_read := tokens.cache_read_input_tokens
      let input_normal : Int := (input_tokens : Int) - cache_creation - cache_read
      let c1 : ℚ := if 0 < input_normal then (input_normal * precos.input) / 1000000 else 0
      let c2 : ℚ := if 0 < cache_creation then
          (cache_creation * (precos.cache_write_5m.getD precos.input)) / 1000000 else 0
      let c3 : ℚ := if 0 < cache_read then
          (cache_read * (precos.cache_read.getD 0)) / 1000000 else 0
      c1 + c2 + c3 + (output_tokens * precos.output) / 1000000
    else
      let preco_input := if use_cached && precos.cached_input.isSome then
          precos.cached_input.getD 0 else precos.input
      let c1 : ℚ := (input_tokens * preco_input) / 1000000
      let c2 : ℚ := (output_tokens * precos.output) / 1000000
      let c3 : ℚ := if 0 < reasoning_tokens then
          (reasoning_tokens * precos.output) / 1000000 else 0
      c1 + c2 + c3

end Pricing

namespace Tracker

open Pricing

/-- The `"tokens"` sub-dict of the record that `TokensTracker.registrar_chamada`
appends to `self.chamadas` (`src/utils/tokens_tracker.py`).  The surrounding
record also carries `timestamp`, `componente`, `model`, `custo`, etc.; only the
token counts, which the claims are about, are embedded. -/
structure RegistroTokens where
  input : Nat
  output : Nat
  reasoning : Nat
  cache_creation : Nat
  cache_read : Nat
  total : Int
  deriving DecidableEq, Repr

/-- The token-record part of `TokensTracker.registrar_chamada`:
`total` is the supplied `tokens["total"]` when present and `> 0`, otherwise
`tokens.get("input", 0) + tokens.get("output", 0) + tokens.get("reasoning", 0)`. -/
def registrar_chamada_tokens (tokens : Tokens) : RegistroTokens :=
  let fallback : Int := (tokens.input : Int) + tokens.output + tokens.reasoning
  let total_tokens : Int :=
    match tokens.total with
    | some v => if 0 < v then v else fallback
    | none => fallback
  { input := pyOr tokens.input tokens.input_tokens,
    output := pyOr tokens.output tokens.output_tokens,
    reasoning := pyOr tokens.reasoning tokens.reasoning_tokens,
    cache_creation := tokens.cache_creation_input_tokens,
    cache_read := tokens.cache_read_input_tokens,
    total := total_tokens }

end Tracker

namespace Agent

/-- One entry of `response.tool_calls` in `RegenerationCreditAgent.chat`
(`src/agents/main_agent.py`): `call.get("name", "")`, `call.get("args", {})`
(kept opaque as a string), `call.get("id", ...)` (`none` = key absent). -/
structure ToolCall where
  name : String
  args : String
  id : Option String
  deriving DecidableEq, Repr

/-- A model response: `response.content` and `response.tool_calls`
(`getattr(response, "tool_calls", None) or []`). -/
structure ModelResponse where
  content : String
  tool_calls : List ToolCall

/-- The LangChain message kinds the loop manipulates. -/
inductive Msg
  | system (content : String)
  | human (content : String)
  | ai (content : String) (tool_calls : List ToolCall)
  | tool (content : String) (tool_call_id : String)
  deriving DecidableEq, Repr

/-- The `tool_call_id` of a `ToolMessage`, `none` for other message kinds. -/
def msgToolCallId : Msg → Option String
  | .tool _ tid => some tid
  | _ => none

/-- A bound tool: `t.name` and `t.invoke`;  `.error e` models
`t.invoke(args)` raising an exception with text `str(e) = e`. -/
structure Tool where
  name : String
  invoke : String → Except String String

/-- Python's `call.get("id", f"call_{iteration}")`. -/
def effectiveId (iteration : Nat) (call : ToolCall) : String :=
  call.id.getD ("call_" ++ toString iteration)

/-- The body of the `for call in tool_calls` loop: find the tool by name,
invoke it, and build the `ToolMessage` that is appended — an error-text
message when the tool is unknown or its invocation raises. -/
def execToolCall (tools : List Tool) (iteration : Nat) (call : ToolCall) : Msg :=
  let tool_call_id := effectiveId iteration call
  match tools.find? (fun t => t.name == call.name) with
  | some tool_obj =>
    match tool_obj.invoke call.args with
    | .ok tool_result => .tool tool_result tool_call_id
    | .error e =>
      .tool ("Erro ao executar tool '" ++ call.name ++ "': " ++ e) tool_call_id
  | none => .tool ("Tool '" ++ call.name ++ "' não encontrada") tool_call_id

/-- The whole `for call in tool_calls` loop: one `ToolMessage` appended per
call, in order. -/
def dispatchToolCalls (tools : List Tool) (iteration : Nat)
    (calls : List ToolCall) : List Msg :=
  calls.map (execToolCall tools iteration)

/-- The outcome dict of `RegenerationCreditAgent.chat`, restricted to the keys
the claims are about; `iterations` is the value of the loop counter at exit. -/
structure ChatResult where
  success : Bool
  response : String
  error : Option String
  iterations : Nat
  deriving DecidableEq, Repr

/-- Setting `Settings.max_iterations` (`src/config/settings.py`): fixed value `10`. -/
def settingsMaxIterations : Nat := 10

/-- Python's `max_iterations = settings.max_iterations or 15` in `chat`. -/
def maxIterationsEffective : Nat :=
  if settingsMaxIterations = 0 then 15 else settingsMaxIterations

/-- The `while iteration < max_iterations` ReAct loop of
`RegenerationCreditAgent.chat`, with `fuel = max_iterations - iteration`
(the number of remaining iterations) as the recursion measure.  The model is
a pure stub `List Msg → ModelResponse` in place of
`self.llm_with_tools.invoke(messages)`.  Returns the result dict together
with the final transient message list. -/
def chatLoop (stub : List Msg → ModelResponse) (tools : List Tool) :
    Nat → List Msg → Nat → ChatResult × List Msg
  | 0, messages, iteration =>
    ({ success := false,
       response := "Desculpe, não consegui processar completamente sua pergunta. Tente reformular ou fazer uma pergunta mais específica.",
       error := some "max_iterations_reached",
       iterations := iteration }, messages)
  | fuel + 1, messages, iteration =>
    let iteration := iteration + 1
    let response := stub messages
    if response.tool_calls.isEmpty then
      ({ success := true, response := response.content, error := none,
         iterations := iteration }, messages)
    else
      let messages := messages ++ [Msg.ai response.content response.tool_calls]
          ++ dispatchToolCalls tools iteration response.tool_calls
      chatLoop stub tools fuel messages iteration

/-- Embeds `RegenerationCreditAgent.chat`: build the initial message list
(system prompt, memory history, current question) and run the loop from
`iteration = 0` with `max_iterations` remaining iterations. -/
def chat (stub : List Msg → ModelResponse) (tools : List Tool)
    (systemPrompt : String) (history : List Msg) (message : String) :
    ChatResult × List Msg :=
  let messages := Msg.system systemPrompt :: (history ++ [Msg.human message])
  chatLoop stub tools maxIterationsEffective messages 0

end Agent

namespace Rag

open Pricing (pyOr)

/-- A retrieved document: `page_content` plus the two metadata keys the code
reads (`none` = key absent from `doc.metadata`). -/
structure Doc where
  page_content : String
  source : Option String := none
  source_type : Option String := none
  deriving DecidableEq, Repr

/-- Embeds `VectorStoreManager` (`src/rag/vector_store.py`): `initialized` is
`self.vector_store is not None`; `search` is the underlying
`self.vector_store.similarity_search_with_score(query, k)` (the `filter`
branch calls the same function and is not distinguished here). -/
structure VectorStoreManager where
  initialized : Bool
  search : String → Nat → List (Doc × ℚ)

/-- Setting `settings.top_k_results` (`src/config/settings.py`): fixed value `5`. -/
def settingsTopK : Nat := 5

/-- The `metadata_summary` aggregation of `search_with_audit`
(the `source_types` / `sources` string aggregates are not embedded;
no claim mentions them). -/
structure MetadataSummary where
  avg_score : ℚ
  min_score : ℚ
  max_score : ℚ
  deriving DecidableEq, Repr

/-- Computes `avg_score`, `min_score`, `max_score` over `results_with_scores`:
Python's `sum/len`, `min`, `max`, each `0.0` on the empty list. -/
def mkMetadataSummary (results_with_scores : List (Doc × ℚ)) : MetadataSummary :=
  match results_with_scores.map Prod.snd with
  | [] => { avg_score := 0.0, min_score := 0.0, max_score := 0.0 }
  | s :: ss =>
    { avg_score := (s :: ss).sum / (s :: ss).length,
      min_score := ss.foldl min s,
      max_score := ss.foldl max s }

/-- The audit dict returned by `search_with_audit`, restricted to the fields
the claims are about (`filter` and `elapsed_seconds` omitted). -/
structure Audit where
  query : String
  k : Nat
  tool_name : String
  num_results : Nat
  results : List Doc
  results_with_scores : List (Doc × ℚ)
  metadata_summary : MetadataSummary
  deriving DecidableEq, Repr

/-- Embeds `VectorStoreManager.search_with_audit`: raises
`ValueError("Vector store não inicializado")` (modelled as `.error`) when the
store was never initialized; `k = k or settings.top_k_results` treats both an
absent and a zero `k` as "use the default". -/
def search_with_audit (vs : VectorStoreManager) (query : String)
    (k : Option Nat := none) (tool_name : String := "search") :
    Except String Audit :=
  if !vs.initialized then .error "Vector store não inicializado"
  else
    let k := pyOr (k.getD 0) settingsTopK
    let results_with_scores := vs.search query k
    let results := results_with_scores.map Prod.fst
    .ok { query := query, k := k, tool_name := tool_name,
          num_results := results.length, results := results,
          results_with_scores := results_with_scores,
          metadata_summary := mkMetadataSummary results_with_scores }

/-- Embeds `RAGTools._format_results` (`src/tools/rag_tools.py`) with
`include_metadata = True`. -/
def format_results (results : List Doc) : String :=
  if results.isEmpty then "Nenhuma informação encontrada."
  else
    String.intercalate "\n" (results.enum.foldr (fun (p : Nat × Doc) acc =>
      ("[Resultado " ++ toString (p.1 + 1) ++ "]")
        :: ("Tipo: " ++ p.2.source_type.getD "unknown")
        :: ("Fonte: " ++ p.2.source.getD "Desconhecido")
        :: ("Conteúdo:\n" ++ p.2.page_content.trim)
        :: ⟨List.replicate 50 '-'⟩ :: acc) [])

/-- Embeds `RAGTools.search_general`: calls `search_with_audit` with
`k = settings.top_k_results`, and its `except Exception` clause turns ANY
raised exception into the ordinary string result
`"Erro ao buscar informações: " + str(e)` — nothing propagates. -/
def search_general (vs : VectorStoreManager) (query : String) : String :=
  match search_with_audit vs query (some settingsTopK) "search_general" with
  | .ok audit => format_results audit.results
  | .error e => "Erro ao buscar informações: " ++ e

end Rag

namespace Retriever

/-- A JSON-ish scalar inside the model-produced `filters["headings_enriched"]["$in"]`
list: the LLM may return strings, ints, or anything else. -/
inductive JVal
  | str (s : String)
  | int (n : Int)
  | other
  deriving DecidableEq, Repr

/-- Decimal value of a digit string. -/
def digitsToNat (cs : List Char) : Nat :=
  cs.foldl (fun a c => a * 10 + (c.toNat - '0'.toNat)) 0

/-- Python's `int(x) if isinstance(x, (int, str)) and str(x).isdigit() else -1`:
a nonnegative int prints as pure digits; a string counts only if nonempty and
all digits. -/
def toRequestedId : JVal → Int
  | .int n => if 0 ≤ n then n else -1
  | .str s => if s.data ≠ [] && s.data.all Char.isDigit then (digitsToNat s.data : Int) else -1
  | .other => -1

/-- Builds `requested_ids`: convert each entry, then keep only `x > 0`. -/
def requestedIds (he : List JVal) : List Int :=
  (he.map toRequestedId).filter (fun x => 0 < x)

/-- The `filters["headings_enriched"]` value: absent key, a proper
`{"$in": [...]}` dict, or anything else (non-dict, or no `"$in"` list) —
the code's `isinstance` guards distinguish exactly these. -/
inductive HeadingsConstraint
  | absent
  | inList (vals : List JVal)
  | malformed
  deriving DecidableEq, Repr

/-- Sequentially number one document's headings starting at `n`. -/
def numberHeadings : List String → Nat → List (String × String)
  | [], _ => []
  | h :: hs, n => (toString n, h) :: numberHeadings hs (n + 1)

def buildIdToHeadingAux : List (String × List String) → Nat → List (String × String)
  | [], _ => []
  | (_, hs) :: rest, n => numberHeadings hs n ++ buildIdToHeadingAux rest (n + hs.length)

/-- The global `id_to_heading` map built by `_build_headings_with_ids`
(`src/scripts_exemplos/consultar_vector_store_retriever.py`): headings of all
selected documents numbered `"1"`, `"2"`, … globally (the per-document
`doc_to_headings_with_ids` view is not needed by the claims). -/
def buildIdToHeading (doc_to_headings : List (String × List String)) :
    List (String × String) :=
  buildIdToHeadingAux doc_to_headings 1

/-- Builds `validated_headings`: requested IDs resolved through `id_to_heading`,
IDs not in the map dropped. -/
def validatedHeadings (id_to_heading : List (String × String))
    (requested : List Int) : List String :=
  requested.filterMap (fun i => id_to_heading.lookup (toString i))

/-- The heading-validation block of `retriever_query`: extract
`requested_ids` from the raw constraint, resolve them against
`id_to_heading`; pop the key if some IDs were requested but none validated,
replace the constraint if some validated, and otherwise leave the raw
constraint unchanged. -/
def validateHeadings (id_to_heading : List (String × String))
    (hc : HeadingsConstraint) : HeadingsConstraint :=
  let requested_ids : List Int :=
    match hc with
    | .inList he => requestedIds he
    | _ => []
  let validated_headings := validatedHeadings id_to_heading requested_ids
  if requested_ids ≠ [] && validated_headings.isEmpty then .absent
  else if !validated_headings.isEmpty then .inList (validated_headings.map .str)
  else hc

end Retriever

/-! Concrete instances used by the witnesses and counterexamples. -/

/-- The uninitialized vector-store manager (`self.vector_store is None`). -/
def storeOffline : Rag.VectorStoreManager :=
  { initialized := false, search := fun _ _ => [] }

/-- The `search_general` LangChain tool as bound by the agent: its `func`
never raises, because `RAGTools.search_general` catches every exception. -/
def searchGeneralTool : Agent.Tool :=
  { name := "buscar_informacoes_gerais",
    invoke := fun q => .ok (Rag.search_general storeOffline q) }

/-- A model stub that first requests the retrieval tool, then answers. -/
def stubRetrievalTurn : List Agent.Msg → Agent.ModelResponse := fun ms =>
  if ms.any (fun m => (Agent.msgToolCallId m).isSome) then
    { content := "resposta final", tool_calls := [] }
  else
    { content := "",
      tool_calls := [⟨"buscar_informacoes_gerais", "o que é o projeto?", some "call-1"⟩] }

/-- A tool whose invocation succeeds. -/
def toolOk : Agent.Tool := { name := "tool_ok", invoke := fun _ => .ok "ok!" }

/-- A tool whose invocation raises (`str(e) = "boom"`). -/
def toolBoom : Agent.Tool := { name := "tool_boom", invoke := fun _ => .error "boom" }

/-- A concrete initialized store returning at most `n` scored passages. -/
def storeOnline : Rag.VectorStoreManager :=
  { initialized := true,
    search := fun _ n =>
      ([(⟨"trecho um", some "README.md", some "documentation"⟩, 2),
        (⟨"trecho dois", none, none⟩, 4)] : List (Rag.Doc × ℚ)).take n }

namespace Util

/-- A successful association-list lookup exhibits a member of the list. -/
theorem lookup_mem {α β : Type _} [BEq α] [LawfulBEq α] {l : List (α × β)}
    {k : α} {v : β} (h : l.lookup k = some v) : (k, v) ∈ l := by
  induction l with
  | nil => simp at h
  | cons p rest ih =>
    obtain ⟨a, b⟩ := p
    rw [List.lookup] at h
    by_cases hak : k == a
    · rw [hak] at h
      simp only [Option.some.injEq] at h
      rw [eq_of_beq hak, h]
      exact List.mem_cons_self _ _
    · simp only [Bool.not_eq_true] at hak
      rw [hak] at h
      exact List.mem_cons_of_mem _ (ih h)

end Util

namespace Pricing

/-- The `claude-sonnet-4.5` pricing entry, resolved. -/
lemma obter_sonnet :
    obter_precos_modelo "claude-sonnet-4.5"
      = some ⟨3.00, 15.00, none, some 3.75, some 6.00, some 0.30⟩ := rfl

lemma detectar_sonnet : detectar_provider "claude-sonnet-4.5" = "anthropic" := rfl

/-- The `gpt-4.1` pricing entry, resolved. -/
lemma obter_gpt41 :
    obter_precos_modelo "gpt-4.1" = some ⟨2.00, 8.00, some 0.50, none, none, none⟩ := rfl

lemma detectar_gpt41 : detectar_provider "gpt-4.1" = "openai" := rfl

lemma pyOr_zero (a : Nat) : pyOr a 0 = a := by
  unfold pyOr; split <;> omega

/-- Every alias key is nonempty, slash-free, and its target is priced. -/
lemma alias_keys_ok : ∀ kv ∈ MODEL_ALIASES,
    kv.1 ≠ "" ∧ kv.1.data.contains '/' = false
      ∧ (PRICING_ALL.lookup kv.2).isSome := by decide

/-- Every pricing key is nonempty, slash-free, and not an alias key. -/
lemma pricing_keys_ok : ∀ kv ∈ PRICING_ALL,
    kv.1 ≠ "" ∧ kv.1.data.contains '/' = false
      ∧ MODEL_ALIASES.lookup kv.1 = none := by decide

end Pricing

/-- C4: for token counts `{input:10000, output:2000,
cache_creation_input_tokens:5000, cache_read_input_tokens:2000}` on
`claude-sonnet-4.5` (priced `{input:3.00, cache_write_5m:3.75,
cache_read:0.30, output:15.00}` per 1M tokens), `calcular_custo` returns
exactly `(3000·3.00 + 5000·3.75 + 2000·0.30 + 2000·15.00)/1_000_000 =
0.05835`: cache-read and cache-creation tokens are subtracted from `input`
to get the normal input count, and each bucket is priced at its own rate. -/
theorem C4_cache_aware_cost :
    Pricing.calcular_custo
        { input := 10000, output := 2000, cache_creation_input_tokens := 5000,
          cache_read_input_tokens := 2000 } "claude-sonnet-4.5"
      = (3000 * 3.00 + 5000 * 3.75 + 2000 * 0.30 + 2000 * 15.00) / 1000000
    ∧ ((3000 * 3.00 + 5000 * 3.75 + 2000 * 0.30 + 2000 * 15.00) / 1000000 : ℚ)
      = 0.05835 := by
  constructor
  · rw [Pricing.calcular_custo, Pricing.obter_sonnet, Pricing.detectar_sonnet]
    norm_num [Pricing.pyOr]
  · norm_num

/-- C10: `normalizar_nome_modelo` maps the empty string (Python's only falsy
`str`) to `"claude-sonnet-4.5"`, so `calcular_custo` with an empty model name
bills exactly as for `claude-sonnet-4.5` instead of returning the
unknown-model `0.0`; conversely, whenever the unknown-model fallback is taken
the name is nonempty and absent from both the alias table and the pricing
table. -/
theorem C10_empty_model_fallback :
    Pricing.normalizar_nome_modelo "" = "claude-sonnet-4.5"
    ∧ (∀ (t : Pricing.Tokens) (uc : Bool),
        Pricing.calcular_custo t "" uc
          = Pricing.calcular_custo t "claude-sonnet-4.5" uc)
    ∧ (∀ m : String, Pricing.obter_precos_modelo m = none →
        m ≠ "" ∧ Pricing.MODEL_ALIASES.lookup m = none
          ∧ Pricing.PRICING_ALL.lookup m = none) := by
  refine ⟨rfl, fun t uc => rfl, fun m h => ?_⟩
  have hm : m ≠ "" := by
    rintro rfl
    exact absurd h (by decide)
  refine ⟨hm, ?_, ?_⟩
  · by_contra hal
    rw [← Ne, Option.ne_none_iff_exists'] at hal
    obtain ⟨tgt, htgt⟩ := hal
    obtain ⟨-, hslash, hsome⟩ := Pricing.alias_keys_ok _ (Util.lookup_mem htgt)
    have hnorm : Pricing.normalizar_nome_modelo m = tgt := by
      rw [Pricing.normalizar_nome_modelo, if_neg hm]
      simp only [hslash, Bool.false_eq_true, if_false, htgt]
    rw [Pricing.obter_precos_modelo, hnorm] at h
    rw [h] at hsome
    simp at hsome
  · by_contra hpr
    rw [← Ne, Option.ne_none_iff_exists'] at hpr
    obtain ⟨p, hp⟩ := hpr
    obtain ⟨-, hslash, halias⟩ := Pricing.pricing_keys_ok _ (Util.lookup_mem hp)
    have hnorm : Pricing.normalizar_nome_modelo m = m := by
      rw [Pricing.normalizar_nome_modelo, if_neg hm]
      simp only [hslash, Bool.false_eq_true, if_false, halias]
    rw [Pricing.obter_precos_modelo, hnorm, hp] at h
    exact absurd h (by simp)

/-- Witness for C10: the unknown-model direction instantiated at the concrete
unknown name `"modelo-x"`. -/
theorem C10_empty_model_fallback_witness :
    Pricing.obter_precos_modelo "modelo-x" = none
    ∧ ("modelo-x" ≠ "" ∧ Pricing.MODEL_ALIASES.lookup "modelo-x" = none
        ∧ Pricing.PRICING_ALL.lookup "modelo-x" = none) :=
  ⟨by decide, C10_empty_model_fallback.2.2 "modelo-x" (by decide)⟩

namespace Agent

/-- Under a stub that always requests at least one tool call, the loop burns
all its fuel and exits with the `max_iterations_reached` failure dict, the
counter having advanced by exactly `fuel`. -/
lemma chatLoop_always_tools (stub : List Msg → ModelResponse) (tools : List Tool)
    (h : ∀ ms, (stub ms).tool_calls ≠ []) :
    ∀ (fuel : Nat) (ms : List Msg) (it : Nat),
      (chatLoop stub tools fuel ms it).1
        = { success := false,
            response := "Desculpe, não consegui processar completamente sua pergunta. Tente reformular ou fazer uma pergunta mais específica.",
            error := some "max_iterations_reached",
            iterations := it + fuel } := by
  intro fuel
  induction fuel with
  | zero => intro ms it; rfl
  | succ n ih =>
    intro ms it
    rw [chatLoop]
    have hne : (stub ms).tool_calls.isEmpty = false := by
      rw [List.isEmpty_eq_false]
      exact h ms
    simp only [hne, Bool.false_eq_true, if_false, ih]
    congr 1
    omega

end Agent

/-- C1: for every model stub that always returns at least one tool call,
`RegenerationCreditAgent.chat` terminates after exactly `max_iterations`
loop iterations (`settings.max_iterations = 10`, and `max_iterations =
settings.max_iterations or 15`) and returns a result dict with
`success = False` and `error = "max_iterations_reached"` — it never loops
forever (the loop is structurally bounded by its fuel). -/
theorem C1_loop_termination (stub : List Agent.Msg → Agent.ModelResponse)
    (tools : List Agent.Tool) (systemPrompt : String) (history : List Agent.Msg)
    (message : String) (h : ∀ ms, (stub ms).tool_calls ≠ []) :
    (Agent.chat stub tools systemPrompt history message).1
      = { success := false,
          response := "Desculpe, não consegui processar completamente sua pergunta. Tente reformular ou fazer uma pergunta mais específica.",
          error := some "max_iterations_reached",
          iterations := Agent.settingsMaxIterations }
    ∧ Agent.settingsMaxIterations = 10 :=
  ⟨Agent.chatLoop_always_tools stub tools h Agent.maxIterationsEffective _ 0, rfl⟩

/-- Witness for C1: a concrete stub that always asks for one tool call. -/
theorem C1_loop_termination_witness :
    (∀ ms, ((fun _ : List Agent.Msg =>
        ({ content := "", tool_calls := [⟨"alguma_tool", "{}", some "id-1"⟩] }
          : Agent.ModelResponse)) ms).tool_calls ≠ [])
    ∧ (Agent.chat
          (fun _ => { content := "", tool_calls := [⟨"alguma_tool", "{}", some "id-1"⟩] })
          [] "sys" [] "oi").1
        = { success := false,
            response := "Desculpe, não consegui processar completamente sua pergunta. Tente reformular ou fazer uma pergunta mais específica.",
            error := some "max_iterations_reached",
            iterations := 10 } :=
  ⟨fun _ => by simp,
   (C1_loop_termination _ [] "sys" [] "oi" (fun _ => by simp)).1⟩

/-- Counterexample to C5: `claude-sonnet-4.5` has a known pricing entry
(output rate 15.00), yet adding 1000 reasoning tokens to
`{input:10000, output:2000}` does NOT increase the computed cost by
`1000 × 15.00 / 1_000_000` — the Anthropic branch of `calcular_custo`
ignores reasoning tokens entirely. -/
theorem C5_counterexample :
    Pricing.obter_precos_modelo "claude-sonnet-4.5"
      = some ⟨3.00, 15.00, none, some 3.75, some 6.00, some 0.30⟩
    ∧ ¬ (Pricing.calcular_custo
          { input := 10000, output := 2000, reasoning := 1000 } "claude-sonnet-4.5"
        = Pricing.calcular_custo { input := 10000, output := 2000 } "claude-sonnet-4.5"
            + 1000 * (15.00 : ℚ) / 1000000) := by
  refine ⟨rfl, ?_⟩
  rw [Pricing.calcular_custo, Pricing.obter_sonnet, Pricing.detectar_sonnet,
    Pricing.calcular_custo, Pricing.obter_sonnet, Pricing.detectar_sonnet]
  norm_num [Pricing.pyOr]

/-- C5 as amended: `calcular_custo` bills reasoning tokens at the model's
output rate only in the non-Anthropic (OpenAI) branch: for every model with a
known pricing entry whose detected provider is not `"anthropic"`, adding `r`
reasoning tokens to a token dict (one that does not use the
`reasoning_tokens` alias key) increases the cost by exactly
`r × output rate / 1_000_000`; in particular, for
`{input:10000, output:2000, reasoning:1000}` on `gpt-4.1`
(priced `{input:2.00, output:8.00}`) the cost equals `0.044`.
Anthropic-priced models ignore reasoning tokens (see the counterexample). -/
theorem C5_reasoning_as_output (model : String) (p : Pricing.Precos)
    (hp : Pricing.obter_precos_modelo model = some p)
    (hprov : Pricing.detectar_provider model ≠ "anthropic")
    (t : Pricing.Tokens) (r : Nat) (ht : t.reasoning_tokens = 0) :
    Pricing.calcular_custo { t with reasoning := t.reasoning + r } model
      = Pricing.calcular_custo t model + r * p.output / 1000000
    ∧ Pricing.calcular_custo
        { input := 10000, output := 2000, reasoning := 1000 } "gpt-4.1" = 0.044 := by
  constructor
  · rw [Pricing.calcular_custo, hp, Pricing.calcular_custo, hp]
    simp only [if_neg hprov]
    simp only [ht, Pricing.pyOr_zero, Bool.false_and, Bool.false_eq_true, if_false]
    split_ifs with h1 h2 h2
    · push_cast; ring
    · have h0 : t.reasoning = 0 := by omega
      rw [h0]; push_cast; ring
    · omega
    · have hr : r = 0 := by omega
      rw [hr]; push_cast; ring
  · rw [Pricing.calcular_custo, Pricing.obter_gpt41, Pricing.detectar_gpt41]
    norm_num [Pricing.pyOr]
    decide

/-- Witness for C5 as amended: instantiated at `gpt-4.1`,
`t = {input:10000, output:2000}`, `r = 1000`. -/
theorem C5_reasoning_as_output_witness :
    Pricing.detectar_provider "gpt-4.1" ≠ "anthropic"
    ∧ Pricing.calcular_custo { input := 10000, output := 2000, reasoning := 0 + 1000 } "gpt-4.1"
        = Pricing.calcular_custo { input := 10000, output := 2000 } "gpt-4.1"
            + 1000 * (⟨2.00, 8.00, some 0.50, none, none, none⟩ : Pricing.Precos).output / 1000000 :=
  ⟨by decide,
   (C5_reasoning_as_output "gpt-4.1" _ Pricing.obter_gpt41 (by decide)
      { input := 10000, output := 2000 } 1000 rfl).1⟩

/-- Counterexample to C8: for the dict
`{input:10, output:5, cache_creation_input_tokens:7}` (no `total`), the
stored total is `10 + 5 = 15`, not the sum `22` of the record's other
token-count fields — the fallback sum in `registrar_chamada` does not include
the cache fields. -/
theorem C8_counterexample :
    (Tracker.registrar_chamada_tokens
        { input := 10, output := 5, cache_creation_input_tokens := 7 }).total = 15
    ∧ (Tracker.registrar_chamada_tokens
        { input := 10, output := 5, cache_creation_input_tokens := 7 }).cache_creation = 7
    ∧ ¬ ((Tracker.registrar_chamada_tokens
          { input := 10, output := 5, cache_creation_input_tokens := 7 }).total
        = ((Tracker.registrar_chamada_tokens
              { input := 10, output := 5, cache_creation_input_tokens := 7 }).input : Int)
          + (Tracker.registrar_chamada_tokens
              { input := 10, output := 5, cache_creation_input_tokens := 7 }).output
          + (Tracker.registrar_chamada_tokens
              { input := 10, output := 5, cache_creation_input_tokens := 7 }).reasoning
          + (Tracker.registrar_chamada_tokens
              { input := 10, output := 5, cache_creation_input_tokens := 7 }).cache_creation
          + (Tracker.registrar_chamada_tokens
              { input := 10, output := 5, cache_creation_input_tokens := 7 }).cache_read) := by
  decide

/-- C8 as amended: when `registrar_chamada` is given a token dict whose
`total` is absent or not positive, the stored entry's total equals
`input + output + reasoning` (from the dict's plain keys) — the cache fields
are NOT included in the fallback sum; when a positive `total` is supplied,
that value is stored as authoritative. -/
theorem C8_total_fallback (t : Pricing.Tokens) :
    (∀ v, t.total = some v → 0 < v →
      (Tracker.registrar_chamada_tokens t).total = v)
    ∧ ((∀ v, t.total = some v → v ≤ 0) →
      (Tracker.registrar_chamada_tokens t).total
        = (t.input : Int) + t.output + t.reasoning) := by
  unfold Tracker.registrar_chamada_tokens
  rcases ht : t.total with - | v
  · exact ⟨fun v hv => by simp at hv, fun _ => by simp⟩
  · refine ⟨fun w hw hpos => ?_, fun hle => ?_⟩
    · obtain rfl : v = w := by simpa using hw
      simp [if_pos hpos]
    · have : v ≤ 0 := hle v rfl
      simp [if_neg (by omega : ¬(0 : Int) < v)]

/-- Witness for C8 as amended: a supplied positive total `99` is stored
as-is; without `total`, `{input:10, output:5, reasoning:4}` stores `19`. -/
theorem C8_total_fallback_witness :
    (Tracker.registrar_chamada_tokens
        { input := 1, output := 2, total := some 99 }).total = 99
    ∧ (Tracker.registrar_chamada_tokens
        { input := 10, output := 5, reasoning := 4 }).total = (10 : Int) + 5 + 4 :=
  ⟨(C8_total_fallback { input := 1, output := 2, total := some 99 }).1 99 rfl
      (by decide),
   (C8_total_fallback { input := 10, output := 5, reasoning := 4 }).2
      (fun v hv => by simp at hv)⟩

/-- Counterexample to C9: with the ID map `{"1": "Balanço"}` (built from one
document with one heading) and a model answer whose
`headings_enriched.$in` list is `["DRE"]` — a hallucinated heading text, not
an ID — `requested_ids` is empty, the `pop`/replace branches are skipped, and
the raw constraint survives: the final filter's `headings_enriched` contains
`"DRE"`, which is not a heading whose ID is in the map. -/
theorem C9_counterexample :
    Retriever.buildIdToHeading [("DOC|DF|2025-06-30", ["Balanço"])] = [("1", "Balanço")]
    ∧ Retriever.validateHeadings [("1", "Balanço")]
        (.inList [.str "DRE"]) = .inList [.str "DRE"]
    ∧ "DRE" ∉ (["Balanço"] : List String) := by
  decide

/-- C9 as amended: whenever the requested `$in` list contains at least one
entry in positive-integer form (`requested_ids ≠ []`), the final
`headings_enriched` constraint is built only from headings whose IDs are in
the ID-to-heading map shown to the model: requested IDs absent from the map
are dropped; if none of the requested IDs is in the map the key is removed
entirely; otherwise the constraint is exactly the list of validated headings,
each of which is a heading value of the map.  (When no entry of the `$in`
list is in positive-integer form, the raw constraint — possibly hallucinated
— is left unchanged; see the counterexample.) -/
theorem C9_heading_id_validation (idMap : List (String × String))
    (he : List Retriever.JVal) (hreq : Retriever.requestedIds he ≠ []) :
    (Retriever.validatedHeadings idMap (Retriever.requestedIds he) = [] →
      Retriever.validateHeadings idMap (.inList he) = .absent)
    ∧ (Retriever.validatedHeadings idMap (Retriever.requestedIds he) ≠ [] →
      Retriever.validateHeadings idMap (.inList he)
        = .inList ((Retriever.validatedHeadings idMap
            (Retriever.requestedIds he)).map .str))
    ∧ (∀ h ∈ Retriever.validatedHeadings idMap (Retriever.requestedIds he),
        h ∈ idMap.map Prod.snd) := by
  refine ⟨fun hempty => ?_, fun hne => ?_, fun h hmem => ?_⟩
  · rw [Retriever.validateHeadings]
    simp only [hempty]
    rw [if_pos (by simp [hreq])]
  · rw [Retriever.validateHeadings]
    rw [if_neg (by simp [List.isEmpty_iff, hne]), if_pos (by simp [List.isEmpty_iff, hne])]
  · rw [Retriever.validatedHeadings] at hmem
    obtain ⟨i, -, hlk⟩ := List.mem_filterMap.mp hmem
    exact List.mem_map_of_mem Prod.snd (Util.lookup_mem hlk)

/-- Witness for C9 as amended: map built from
`{"MULT3|DF|2025-06-30": ["DRE", "Balanço"]}` (IDs `"1"`, `"2"`), model
request `["2", "7", "abc"]`: requested IDs `[2, 7]`, only `2` is in the map,
final constraint `{"$in": ["Balanço"]}`. -/
theorem C9_heading_id_validation_witness :
    Retriever.requestedIds [.str "2", .str "7", .str "abc"] ≠ []
    ∧ Retriever.validateHeadings
        (Retriever.buildIdToHeading [("MULT3|DF|2025-06-30", ["DRE", "Balanço"])])
        (.inList [.str "2", .str "7", .str "abc"])
      = .inList ((Retriever.validatedHeadings
          (Retriever.buildIdToHeading [("MULT3|DF|2025-06-30", ["DRE", "Balanço"])])
          (Retriever.requestedIds [.str "2", .str "7", .str "abc"])).map .str) :=
  ⟨by decide,
   (C9_heading_id_validation
      (Retriever.buildIdToHeading [("MULT3|DF|2025-06-30", ["DRE", "Balanço"])])
      [.str "2", .str "7", .str "abc"] (by decide)).2.1 (by decide)⟩




/-- Counterexample to C3: with an uninitialized index, the retrieval client
does raise the `StoreUnavailable` condition
(`ValueError("Vector store não inicializado")`), but it does NOT propagate to
the caller of the turn: `RAGTools.search_general` absorbs it into the
ordinary tool-result string `"Erro ao buscar informações: …"`, and a
retrieval-dependent turn completes with `success = True`. -/
theorem C3_counterexample :
    Rag.search_with_audit storeOffline "o que é o projeto?" (some 5) "search_general"
      = .error "Vector store não inicializado"
    ∧ Rag.search_general storeOffline "o que é o projeto?"
      = "Erro ao buscar informações: Vector store não inicializado"
    ∧ (Agent.chat stubRetrievalTurn [searchGeneralTool] "sys" [] "oi").1
      = { success := true, response := "resposta final", error := none,
          iterations := 2 } := by
  refine ⟨rfl, rfl, ?_⟩
  decide

/-- C3 as amended: when the vector index has not been initialized,
`search_with_audit` raises `ValueError("Vector store não inicializado")`
(the `StoreUnavailable` condition), but `RAGTools.search_general` catches
every exception and returns the error text
`"Erro ao buscar informações: …"` as an ordinary tool-result string, so the
condition is absorbed rather than propagated as a turn-level failure. -/
theorem C3_store_unavailable_absorbed (vs : Rag.VectorStoreManager)
    (hinit : vs.initialized = false) (query : String) (k : Option Nat)
    (tool_name : String) :
    Rag.search_with_audit vs query k tool_name
      = .error "Vector store não inicializado"
    ∧ Rag.search_general vs query
      = "Erro ao buscar informações: Vector store não inicializado" := by
  have h1 : ∀ (k' : Option Nat) (tn : String),
      Rag.search_with_audit vs query k' tn = .error "Vector store não inicializado" := by
    intro k' tn
    rw [Rag.search_with_audit, hinit]
    rfl
  refine ⟨h1 k tool_name, ?_⟩
  rw [Rag.search_general, h1]
  rfl

/-- Witness for C3 as amended: instantiated at the concrete offline store. -/
theorem C3_store_unavailable_absorbed_witness :
    storeOffline.initialized = false
    ∧ Rag.search_general storeOffline "qual a arquitetura?"
      = "Erro ao buscar informações: Vector store não inicializado" :=
  ⟨rfl, (C3_store_unavailable_absorbed storeOffline rfl "qual a arquitetura?"
      none "search").2⟩

namespace Agent

/-- Every dispatched `ToolMessage` carries the effective `call_id` of the
call it answers. -/
lemma execToolCall_id (tools : List Tool) (it : Nat) (c : ToolCall) :
    msgToolCallId (execToolCall tools it c) = some (effectiveId it c) := by
  cases hf : List.find? (fun t => t.name == c.name) tools with
  | none => simp [execToolCall, hf, msgToolCallId]
  | some tobj =>
    cases hi : tobj.invoke c.args with
    | ok r => simp [execToolCall, hf, hi, msgToolCallId]
    | error e => simp [execToolCall, hf, hi, msgToolCallId]

/-- Counting dispatched tool-result messages by `call_id` is counting the
calls' effective ids. -/
lemma dispatch_countP (tools : List Tool) (it : Nat) (calls : List ToolCall)
    (tgt : String) :
    (dispatchToolCalls tools it calls).countP
        (fun m => msgToolCallId m == some tgt)
      = (calls.map (effectiveId it)).count tgt := by
  induction calls with
  | nil => rfl
  | cons c cs ih =>
    have hcond : (msgToolCallId (execToolCall tools it c) == some tgt)
        = (effectiveId it c == tgt) := by
      rw [execToolCall_id]; rfl
    simp only [dispatchToolCalls, List.map_cons, List.countP_cons,
      List.count_cons, hcond] at *
    omega

end Agent

/-- C2: in any completed turn, the `for call in tool_calls` dispatch step
appends, for every tool call of the assistant response, exactly one
tool-result message carrying that call's `call_id`, in the same relative
order as the calls were issued (provided those ids are pairwise distinct);
when the named tool is not in the bound tool set the appended message is the
`"Tool '…' não encontrada"` error text, and when the tool invocation raises
the appended message is the `"Erro ao executar tool '…': …"` error text — in
every case `execToolCall` returns a message, so no exception escapes the
dispatch step. -/
theorem C2_tool_result_pairing (tools : List Agent.Tool) (iteration : Nat)
    (calls : List Agent.ToolCall)
    (hids : (calls.map (Agent.effectiveId iteration)).Nodup) :
    (Agent.dispatchToolCalls tools iteration calls).map Agent.msgToolCallId
      = calls.map (fun c => some (Agent.effectiveId iteration c))
    ∧ (∀ c ∈ calls,
        (Agent.dispatchToolCalls tools iteration calls).countP
          (fun m => Agent.msgToolCallId m == some (Agent.effectiveId iteration c)) = 1)
    ∧ (∀ c ∈ calls, (∀ t ∈ tools, t.name ≠ c.name) →
        Agent.Msg.tool ("Tool '" ++ c.name ++ "' não encontrada")
            (Agent.effectiveId iteration c)
          ∈ Agent.dispatchToolCalls tools iteration calls)
    ∧ (∀ c ∈ calls, ∀ tobj,
        tools.find? (fun t => t.name == c.name) = some tobj →
        ∀ e, tobj.invoke c.args = .error e →
        Agent.Msg.tool ("Erro ao executar tool '" ++ c.name ++ "': " ++ e)
            (Agent.effectiveId iteration c)
          ∈ Agent.dispatchToolCalls tools iteration calls) := by
  refine ⟨?_, fun c hc => ?_, fun c hc hnone => ?_, fun c hc tobj hfind e herr => ?_⟩
  · rw [Agent.dispatchToolCalls, List.map_map]
    exact List.map_congr_left fun c _ => Agent.execToolCall_id tools iteration c
  · rw [Agent.dispatch_countP]
    exact List.count_eq_one_of_mem hids (List.mem_map_of_mem _ hc)
  · have hfind : tools.find? (fun t => t.name == c.name) = none := by
      rw [List.find?_eq_none]
      intro t ht
      simpa using hnone t ht
    refine List.mem_map.mpr ⟨c, hc, ?_⟩
    simp [Agent.execToolCall, hfind]
  · refine List.mem_map.mpr ⟨c, hc, ?_⟩
    simp [Agent.execToolCall, hfind, herr]



/-- Witness for C2: three calls — one to a working tool, one to an unknown
tool, one (id-less, so `call_id = "call_3"`) to a raising tool. -/
theorem C2_tool_result_pairing_witness :
    ([⟨"tool_ok", "{}", some "id-1"⟩, ⟨"desconhecida", "{}", some "id-2"⟩,
        (⟨"tool_boom", "{}", none⟩ : Agent.ToolCall)].map
      (Agent.effectiveId 3)).Nodup
    ∧ Agent.Msg.tool ("Tool '" ++ "desconhecida" ++ "' não encontrada") "id-2"
        ∈ Agent.dispatchToolCalls [toolOk, toolBoom] 3
            [⟨"tool_ok", "{}", some "id-1"⟩, ⟨"desconhecida", "{}", some "id-2"⟩,
              ⟨"tool_boom", "{}", none⟩]
    ∧ Agent.Msg.tool ("Erro ao executar tool '" ++ "tool_boom" ++ "': " ++ "boom") "call_3"
        ∈ Agent.dispatchToolCalls [toolOk, toolBoom] 3
            [⟨"tool_ok", "{}", some "id-1"⟩, ⟨"desconhecida", "{}", some "id-2"⟩,
              ⟨"tool_boom", "{}", none⟩] :=
  ⟨by decide,
   (C2_tool_result_pairing [toolOk, toolBoom] 3 _ (by decide)).2.2.1
      ⟨"desconhecida", "{}", some "id-2"⟩ (by decide)
      (by
        intro t ht
        rcases List.mem_cons.mp ht with rfl | ht
        · decide
        · rcases List.mem_cons.mp ht with rfl | ht
          · decide
          · cases ht),
   (C2_tool_result_pairing [toolOk, toolBoom] 3 _ (by decide)).2.2.2
      ⟨"tool_boom", "{}", none⟩ (by decide) toolBoom rfl "boom" rfl⟩

namespace Rag

/-- A running `min` fold never exceeds its seed. -/
lemma foldl_min_le_init (l : List ℚ) (a : ℚ) : l.foldl min a ≤ a := by
  induction l generalizing a with
  | nil => simp
  | cons x xs ih =>
    rw [List.foldl_cons]
    exact le_trans (ih (min a x)) (min_le_left a x)

/-- A running `max` fold is at least its seed. -/
lemma init_le_foldl_max (l : List ℚ) (a : ℚ) : a ≤ l.foldl max a := by
  induction l generalizing a with
  | nil => simp
  | cons x xs ih =>
    rw [List.foldl_cons]
    exact le_trans (le_max_left a x) (ih (max a x))

/-- Lower bound: `min · count ≤ sum` for a nonempty list (seed counted). -/
lemma foldl_min_mul_le_sum (l : List ℚ) (a : ℚ) :
    l.foldl min a * (l.length + 1) ≤ a + l.sum := by
  induction l generalizing a with
  | nil => simp
  | cons x xs ih =>
    rw [List.foldl_cons, List.sum_cons, List.length_cons]
    have h1 := ih (min a x)
    have h2 : xs.foldl min (min a x) ≤ min a x := foldl_min_le_init xs (min a x)
    have hm : min a x ≤ a := min_le_left _ _
    have hx : min a x ≤ x := min_le_right _ _
    have key : xs.foldl min (min a x) * ((xs.length : ℚ) + 1 + 1)
        = xs.foldl min (min a x) * ((xs.length : ℚ) + 1)
          + xs.foldl min (min a x) := by ring
    push_cast
    push_cast at h1
    linarith

/-- Upper bound: `sum ≤ max · count` for a nonempty list (seed counted). -/
lemma sum_le_foldl_max_mul (l : List ℚ) (a : ℚ) :
    a + l.sum ≤ l.foldl max a * (l.length + 1) := by
  induction l generalizing a with
  | nil => simp
  | cons x xs ih =>
    rw [List.foldl_cons, List.sum_cons, List.length_cons]
    have h1 := ih (max a x)
    have h2 : max a x ≤ xs.foldl max (max a x) := init_le_foldl_max xs (max a x)
    have hm : a ≤ max a x := le_max_left _ _
    have hx : x ≤ max a x := le_max_right _ _
    have key : xs.foldl max (max a x) * ((xs.length : ℚ) + 1 + 1)
        = xs.foldl max (max a x) * ((xs.length : ℚ) + 1)
          + xs.foldl max (max a x) := by ring
    push_cast
    push_cast at h1
    linarith

/-- The summary of a nonempty score list brackets the average. -/
lemma mkMetadataSummary_bounds (rws : List (Doc × ℚ)) :
    (mkMetadataSummary rws).min_score ≤ (mkMetadataSummary rws).avg_score
    ∧ (mkMetadataSummary rws).avg_score ≤ (mkMetadataSummary rws).max_score := by
  cases hrw : rws.map Prod.snd with
  | nil => simp [mkMetadataSummary, hrw]
  | cons s ss =>
    have hpos : (0 : ℚ) < (ss.length : ℚ) + 1 := by positivity
    constructor
    · show (mkMetadataSummary rws).min_score ≤ _
      rw [mkMetadataSummary, hrw]
      simp only [List.sum_cons, List.length_cons]
      rw [le_div_iff₀ (by push_cast; linarith)]
      have := foldl_min_mul_le_sum ss s
      push_cast
      linarith
    · rw [mkMetadataSummary, hrw]
      simp only [List.sum_cons, List.length_cons]
      rw [div_le_iff₀ (by push_cast; linarith)]
      have := sum_le_foldl_max_mul ss s
      push_cast
      linarith

end Rag

/-- C7: for every retrieval call through `search_with_audit` on an
initialized store whose underlying `similarity_search_with_score` returns at
most `k` scored passages, the audit record satisfies: `num_results` (the
length of `results`) is at most the effective `k`, and
`metadata_summary.avg_score` lies between `min_score` and `max_score`
inclusive — with the summary identically `0.0` when there are no results. -/
theorem C7_retrieval_audit_bounds (vs : Rag.VectorStoreManager) (query : String)
    (kOpt : Option Nat) (tool_name : String)
    (hinit : vs.initialized = true)
    (hk : ∀ q n, (vs.search q n).length ≤ n) :
    ∃ audit, Rag.search_with_audit vs query kOpt tool_name = .ok audit
      ∧ audit.num_results ≤ audit.k
      ∧ audit.metadata_summary.min_score ≤ audit.metadata_summary.avg_score
      ∧ audit.metadata_summary.avg_score ≤ audit.metadata_summary.max_score
      ∧ (audit.results_with_scores = [] →
          audit.metadata_summary = ⟨0, 0, 0⟩) := by
  refine ⟨_, by rw [Rag.search_with_audit, hinit]; rfl, ?_, ?_, ?_, ?_⟩
  · simpa using hk query (Pricing.pyOr (kOpt.getD 0) Rag.settingsTopK)
  · exact (Rag.mkMetadataSummary_bounds _).1
  · exact (Rag.mkMetadataSummary_bounds _).2
  · intro h
    simp only at h
    simp only [h, Rag.mkMetadataSummary, List.map_nil, Rag.MetadataSummary.mk.injEq]
    norm_num


/-- Witness for C7: the audit bounds at the concrete store `storeOnline`. -/
theorem C7_retrieval_audit_bounds_witness :
    storeOnline.initialized = true
    ∧ ∃ audit, Rag.search_with_audit storeOnline "o que é?" none "search" = .ok audit
      ∧ audit.num_results ≤ audit.k
      ∧ audit.metadata_summary.min_score ≤ audit.metadata_summary.avg_score
      ∧ audit.metadata_summary.avg_score ≤ audit.metadata_summary.max_score
      ∧ (audit.results_with_scores = [] →
          audit.metadata_summary = ⟨0, 0, 0⟩) :=
  ⟨rfl, C7_retrieval_audit_bounds storeOnline "o que é?" none "search" rfl
    (fun q n => by rw [storeOnline]; exact List.length_take_le n _)⟩

namespace Pricing

/-- Every priced model has nonnegative input/output/cache-read rates and a
cache-write rate at least the input rate (1.25x in the table). -/
lemma rates_ok : ∀ kv ∈ PRICING_ALL,
    0 ≤ kv.2.input ∧ 0 ≤ kv.2.output ∧ 0 ≤ kv.2.cache_read.getD 0
      ∧ kv.2.input ≤ kv.2.cache_write_5m.getD kv.2.input := by
  intro kv hkv
  rw [PRICING_ALL, List.mem_append] at hkv
  rcases hkv with h | h
  · rw [PRICING_OPENAI] at h
    fin_cases h <;> norm_num
  · rw [PRICING_ANTHROPIC] at h
    fin_cases h <;> norm_num

/-- A guarded billing bucket is monotone in its token count when the rate is
nonnegative. -/
lemma bucket_mono (x y rate : ℚ) (hr : 0 ≤ rate) (hxy : x ≤ y) :
    (if 0 < x then x * rate / 1000000 else 0)
      ≤ (if 0 < y then y * rate / 1000000 else 0) := by
  split_ifs with hx hy hy
  · have := mul_le_mul_of_nonneg_right hxy hr
    linarith
  · linarith
  · have : 0 ≤ y * rate / 1000000 :=
      div_nonneg (mul_nonneg (le_of_lt hy) hr) (by norm_num)
    linarith
  · exact le_refl 0

/-- Shifting `dd` tokens from the normal-input bucket into the cache-write
bucket never decreases the combined cost, because the write rate dominates
the input rate. -/
lemma cc_bucket_mono (a c r dd pi pw : ℚ) (hpi : 0 ≤ pi) (hw : pi ≤ pw)
    (hd : 0 ≤ dd) (hc : 0 ≤ c) :
    (if 0 < a - c - r then (a - c - r) * pi / 1000000 else 0)
      + (if 0 < c then c * pw / 1000000 else 0)
    ≤ (if 0 < a - (c + dd) - r then (a - (c + dd) - r) * pi / 1000000 else 0)
      + (if 0 < c + dd then (c + dd) * pw / 1000000 else 0) := by
  have hdpipw : dd * pi ≤ dd * pw := mul_le_mul_of_nonneg_left hw hd
  have hpw : 0 ≤ pw := le_trans hpi hw
  split_ifs <;>
    nlinarith [hdpipw, mul_nonneg hpi hd, mul_nonneg hpw hd, mul_nonneg hpw hc,
      mul_nonneg hpi hc]

/-- A bucket guarded by an `Int` comparison equals the bucket guarded by the
corresponding `ℚ` comparison. -/
lemma ite_cast_int (x : Int) (rate : ℚ) :
    (if 0 < x then (x : ℚ) * rate / 1000000 else 0)
      = (if 0 < (x : ℚ) then (x : ℚ) * rate / 1000000 else 0) := by
  rcases lt_or_le 0 x with h | h
  · rw [if_pos h, if_pos (by exact_mod_cast h)]
  · rw [if_neg (not_lt.mpr h), if_neg (not_lt.mpr (by exact_mod_cast h))]

/-- A bucket guarded by a `Nat` comparison equals the bucket guarded by the
corresponding `ℚ` comparison. -/
lemma ite_cast_nat (n : Nat) (rate : ℚ) :
    (if 0 < n then (n : ℚ) * rate / 1000000 else 0)
      = (if 0 < (n : ℚ) then (n : ℚ) * rate / 1000000 else 0) := by
  rcases Nat.eq_zero_or_pos n with h | h
  · simp [h]
  · rw [if_pos h, if_pos (by exact_mod_cast h)]

end Pricing

/-- Counterexample to C6: cost is NOT monotone in every token-count field.
On `claude-sonnet-4.5`, raising `cache_read_input_tokens` from `0` to `1000`
(input fixed at 10000) strictly lowers the cost, because cache-read tokens
displace full-rate input tokens and bill at the discounted 0.30 rate; and
with the `input_tokens` alias key present, raising `input` from `0` to `1`
also strictly lowers the cost (the `or`-fallback stops reading the alias). -/
theorem C6_counterexample :
    Pricing.calcular_custo
        { input := 10000, cache_read_input_tokens := 1000 } "claude-sonnet-4.5"
      < Pricing.calcular_custo { input := 10000 } "claude-sonnet-4.5"
    ∧ Pricing.calcular_custo
        { input := 1, input_tokens := 1000 } "claude-sonnet-4.5"
      < Pricing.calcular_custo
        { input := 0, input_tokens := 1000 } "claude-sonnet-4.5" := by
  constructor <;>
  · rw [Pricing.calcular_custo, Pricing.obter_sonnet, Pricing.detectar_sonnet,
      Pricing.calcular_custo, Pricing.obter_sonnet, Pricing.detectar_sonnet]
    norm_num [Pricing.pyOr]

/-- C6 as amended: for every model with a known pricing entry and every token
dict using the plain keys (`input_tokens`/`output_tokens`/`reasoning_tokens`
aliases unset), increasing `input`, `output`, `reasoning`, or
`cache_creation_input_tokens` never decreases `calcular_custo`; increasing
`cache_read_input_tokens` is excluded — it can strictly decrease the cost
(see the counterexample). -/
theorem C6_cost_monotonicity (model : String) (p : Pricing.Precos)
    (hp : Pricing.obter_precos_modelo model = some p)
    (t : Pricing.Tokens) (d : Nat)
    (h1 : t.input_tokens = 0) (h2 : t.output_tokens = 0)
    (h3 : t.reasoning_tokens = 0) :
    Pricing.calcular_custo t model
      ≤ Pricing.calcular_custo { t with input := t.input + d } model
    ∧ Pricing.calcular_custo t model
      ≤ Pricing.calcular_custo { t with output := t.output + d } model
    ∧ Pricing.calcular_custo t model
      ≤ Pricing.calcular_custo { t with reasoning := t.reasoning + d } model
    ∧ Pricing.calcular_custo t model
      ≤ Pricing.calcular_custo
          { t with cache_creation_input_tokens := t.cache_creation_input_tokens + d }
          model := by
  obtain ⟨hin, hout, hcr, hcw⟩ := Pricing.rates_ok _ (Util.lookup_mem
    (show Pricing.PRICING_ALL.lookup (Pricing.normalizar_nome_modelo model) = some p from hp))
  dsimp only at hin hout hcr hcw
  have hd : (0 : ℚ) ≤ (d : ℚ) := by positivity
  by_cases hprov : Pricing.detectar_provider model = "anthropic"
  · refine ⟨?_, ?_, ?_, ?_⟩
    · rw [Pricing.calcular_custo, hp, Pricing.calcular_custo, hp]
      simp only [hprov, if_pos]
      simp only [h1, h2, h3, Pricing.pyOr_zero]
      simp only [Pricing.ite_cast_int, Pricing.ite_cast_nat]
      push_cast
      exact add_le_add_right (add_le_add_right (add_le_add_right
        (Pricing.bucket_mono _ _ _ hin (by linarith)) _) _) _
    · rw [Pricing.calcular_custo, hp, Pricing.calcular_custo, hp]
      simp only [hprov, if_pos]
      simp only [h1, h2, h3, Pricing.pyOr_zero]
      simp only [Pricing.ite_cast_int, Pricing.ite_cast_nat]
      push_cast
      exact add_le_add_left (by nlinarith [mul_nonneg hd hout]) _
    · rw [Pricing.calcular_custo, hp, Pricing.calcular_custo, hp]
      simp only [hprov, if_pos]
      simp only [h1, h2, h3, Pricing.pyOr_zero]
      exact le_rfl
    · rw [Pricing.calcular_custo, hp, Pricing.calcular_custo, hp]
      simp only [hprov, if_pos]
      simp only [h1, h2, h3, Pricing.pyOr_zero]
      simp only [Pricing.ite_cast_int, Pricing.ite_cast_nat]
      push_cast
      exact add_le_add_right (add_le_add_right
        (Pricing.cc_bucket_mono (t.input : ℚ) (t.cache_creation_input_tokens : ℚ)
          (t.cache_read_input_tokens : ℚ) (d : ℚ) p.input
          (p.cache_write_5m.getD p.input) hin hcw hd (by positivity)) _) _
  · refine ⟨?_, ?_, ?_, ?_⟩
    · rw [Pricing.calcular_custo, hp, Pricing.calcular_custo, hp]
      simp only [if_neg hprov, Bool.false_and, Bool.false_eq_true, if_false]
      simp only [h1, h2, h3, Pricing.pyOr_zero]
      push_cast
      exact add_le_add_right (add_le_add_right
        (by nlinarith [mul_nonneg hd hin]) _) _
    · rw [Pricing.calcular_custo, hp, Pricing.calcular_custo, hp]
      simp only [if_neg hprov, Bool.false_and, Bool.false_eq_true, if_false]
      simp only [h1, h2, h3, Pricing.pyOr_zero]
      push_cast
      exact add_le_add_right (add_le_add_left
        (by nlinarith [mul_nonneg hd hout]) _) _
    · rw [Pricing.calcular_custo, hp, Pricing.calcular_custo, hp]
      simp only [if_neg hprov, Bool.false_and, Bool.false_eq_true, if_false]
      simp only [h1, h2, h3, Pricing.pyOr_zero]
      simp only [Pricing.ite_cast_nat]
      push_cast
      exact add_le_add_left (Pricing.bucket_mono _ _ _ hout (by linarith)) _
    · rw [Pricing.calcular_custo, hp, Pricing.calcular_custo, hp]
      simp only [if_neg hprov, Bool.false_and, Bool.false_eq_true, if_false]
      simp only [h1, h2, h3, Pricing.pyOr_zero]
      exact le_rfl

/-- Witness for C6 as amended: `claude-sonnet-4.5`,
`t = {input:10000, cache_creation_input_tokens:100}`, `d = 50`. -/
theorem C6_cost_monotonicity_witness :
    Pricing.calcular_custo
        { input := 10000, cache_creation_input_tokens := 100 } "claude-sonnet-4.5"
      ≤ Pricing.calcular_custo
        { input := 10000 + 50, cache_creation_input_tokens := 100 } "claude-sonnet-4.5"
    ∧ Pricing.calcular_custo
        { input := 10000, cache_creation_input_tokens := 100 } "claude-sonnet-4.5"
      ≤ Pricing.calcular_custo
        { input := 10000, cache_creation_input_tokens := 100 + 50 } "claude-sonnet-4.5" :=
  ⟨(C6_cost_monotonicity "claude-sonnet-4.5" _ Pricing.obter_sonnet
      { input := 10000, cache_creation_input_tokens := 100 } 50 rfl rfl rfl).1,
   (C6_cost_monotonicity "claude-sonnet-4.5" _ Pricing.obter_sonnet
      { input := 10000, cache_creation_input_tokens := 100 } 50 rfl rfl rfl).2.2.2⟩
